import Mathlib

/-!
Verification development for the company-research-agent pipeline
(`pipeline.py`).

The development shallowly embeds the Python code.  Python runtime values
are modelled by the inductive type `PyVal`; fallible Python code is
modelled with `Except String` (the error string names the Python
exception class); exceptions caught by a `try/except` block are turned
back into the value the handler returns.  Library functions used by the
code (`json.loads`, `json.dumps`, `str`, `len`, truthiness, `str.strip`)
are modelled by executable Lean functions whose behaviour follows the
CPython semantics on the value shapes this program can produce.

Remote model invocations are abstracted exactly as the code treats them:
an injected operation `op : Nat → Option PyVal` maps a zero-based attempt
index to the `response.content` produced by `model.invoke` on that
attempt (`none` models the attempt raising an exception).  The retry
wrapper never inspects the payload, so prompts are irrelevant to its
semantics; the one prompt a claim refers to (stage 4) is embedded
separately as `stage_4_score_prompt`.
-/

/-- Model of a Python runtime value as produced and consumed by the
pipeline: `None`, booleans, numbers, strings, lists and string-keyed
dicts.  Numbers are modelled exactly as `m · 10^e` (JSON integers have
`e = 0`); binary floating point is not modelled, which is faithful for
every behaviour the claims mention. -/
inductive PyVal : Type where
  | none : PyVal
  | bool : Bool → PyVal
  | num : Int → Int → PyVal
  | str : String → PyVal
  | list : List PyVal → PyVal
  | dict : List (String × PyVal) → PyVal

/-- Is this value a Python `str`?  (`isinstance(v, str)`). -/
def PyVal.isStr : PyVal → Bool
  | .str _ => true
  | _ => false

/-- Is this value a Python `dict`?  (`isinstance(v, dict)`). -/
def PyVal.isDict : PyVal → Bool
  | .dict _ => true
  | _ => false

/-- Python dict membership / item access: first binding of the key,
mirroring `k in d` and `d[k]` on a dict with unique keys. -/
def dictLookup (kvs : List (String × PyVal)) (k : String) : Option PyVal :=
  match kvs with
  | [] => Option.none
  | (k0, v0) :: rest => if k0 = k then some v0 else dictLookup rest k

/-- Python `d.get(k, default)`. -/
def dictGet (kvs : List (String × PyVal)) (k : String) (default : PyVal) : PyVal :=
  match dictLookup kvs k with
  | some v => v
  | Option.none => default

/-- Python dict insertion `d[k] = v`: updates the first binding in place
(insertion order preserved), appends otherwise. -/
def dictInsert (kvs : List (String × PyVal)) (k : String) (v : PyVal) :
    List (String × PyVal) :=
  match kvs with
  | [] => [(k, v)]
  | (k0, v0) :: rest =>
      if k0 = k then (k0, v) :: rest else (k0, v0) :: dictInsert rest k v

/-- Python truthiness (`bool(v)`): `None` and empty containers, empty
strings and zero are falsy. -/
def pyTruthy : PyVal → Bool
  | .none => false
  | .bool b => b
  | .num m _ => m != 0
  | .str s => !(s == "")
  | .list xs => !xs.isEmpty
  | .dict kvs => !kvs.isEmpty

/-- Truthiness of a stage return value, where Lean `Option.none` stands
for the Python `None` returned by a failed stage method. -/
def optTruthy : Option PyVal → Bool
  | Option.none => false
  | some v => pyTruthy v

/-- Python `len(v)`: defined for strings, lists and dicts; `none`
models the `TypeError` raised on other values. -/
def pyLen : PyVal → Option Nat
  | .str s => some s.length
  | .list xs => some xs.length
  | .dict kvs => some kvs.length
  | _ => Option.none

/-- A single-quote character, used by the Python `repr` model. -/
def squote : String := String.singleton (Char.ofNat 39)

/-- The `\x7b` brace characters, named so they can be used in code. -/
def lbrace : Char := Char.ofNat 123

/-- Closing brace character. -/
def rbrace : Char := Char.ofNat 125

/-- Rendering of a number by Python `str`/`repr` (exact for integers;
the claims never evaluate it on non-integers). -/
def numRepr (m e : Int) : String :=
  if e = 0 then toString m else toString m ++ "e" ++ toString e

mutual

/-- Model of Python `str(v)` on the values above: strings render as
themselves, containers render via `repr` of their elements. -/
def pyStr : PyVal → String
  | .str s => s
  | v => pyRepr v

/-- Model of Python `repr(v)` (string quoting simplified to bare single
quotes; no escaping — the claims never evaluate it on strings containing
quotes). -/
def pyRepr : PyVal → String
  | .none => "None"
  | .bool true => "True"
  | .bool false => "False"
  | .num m e => numRepr m e
  | .str s => squote ++ s ++ squote
  | .list xs => "[" ++ pyReprList xs ++ "]"
  | .dict kvs => String.singleton lbrace ++ pyReprKvs kvs ++ String.singleton rbrace

/-- Comma-joined `repr` of list elements. -/
def pyReprList : List PyVal → String
  | [] => ""
  | [x] => pyRepr x
  | x :: xs => pyRepr x ++ ", " ++ pyReprList xs

/-- Comma-joined `repr` of dict items. -/
def pyReprKvs : List (String × PyVal) → String
  | [] => ""
  | [(k, v)] => squote ++ k ++ squote ++ ": " ++ pyRepr v
  | (k, v) :: kvs => squote ++ k ++ squote ++ ": " ++ pyRepr v ++ ", " ++ pyReprKvs kvs

end

/-- JSON whitespace accepted between tokens by `json.loads`. -/
def jsonWs (c : Char) : Bool :=
  c = ' ' || c = '\t' || c = '\n' || c = '\r'

/-- Skip JSON whitespace. -/
def skipWs (cs : List Char) : List Char := cs.dropWhile jsonWs

/-- Value of one hexadecimal digit, for `\uXXXX` escapes (code points
48-57 are the decimal digits, 97-102 and 65-70 the lower- and
upper-case letters). -/
def hexVal (c : Char) : Option Nat :=
  let n := c.toNat
  if 48 ≤ n ∧ n ≤ 57 then some (n - 48)
  else if 97 ≤ n ∧ n ≤ 102 then some (n - 87)
  else if 65 ≤ n ∧ n ≤ 70 then some (n - 55)
  else Option.none

/-- Parse the body of a JSON string literal (after the opening quote):
returns the decoded characters and the input after the closing quote.
Raw control characters are rejected, standard escapes and `\uXXXX` are
decoded (`Char.ofNat` maps unpaired surrogates to a default character —
a corner the claims never touch). -/
def parseStrBody : Nat → List Char → Option (List Char × List Char)
  | 0, _ => Option.none
  | _ + 1, [] => Option.none
  | fuel + 1, c :: rest =>
      if c = '"' then some ([], rest)
      else if c = '\\' then
        match rest with
        | [] => Option.none
        | e :: rest2 =>
            let decoded : Option (Char × List Char) :=
              if e = '"' then some ('"', rest2)
              else if e = '\\' then some ('\\', rest2)
              else if e = '/' then some ('/', rest2)
              else if e = 'b' then some ('\x08', rest2)
              else if e = 'f' then some ('\x0c', rest2)
              else if e = 'n' then some ('\n', rest2)
              else if e = 'r' then some ('\r', rest2)
              else if e = 't' then some ('\t', rest2)
              else if e = 'u' then
                match rest2 with
                | h1 :: h2 :: h3 :: h4 :: rest3 =>
                    match hexVal h1, hexVal h2, hexVal h3, hexVal h4 with
                    | some a, some b, some c3, some d =>
                        some (Char.ofNat (((a * 16 + b) * 16 + c3) * 16 + d), rest3)
                    | _, _, _, _ => Option.none
                | _ => Option.none
              else Option.none
            match decoded with
            | some (ch, rest3) =>
                match parseStrBody fuel rest3 with
                | some (cs, rest4) => some (ch :: cs, rest4)
                | Option.none => Option.none
            | Option.none => Option.none
      else if c.toNat < 32 then Option.none
      else
        match parseStrBody fuel rest with
        | some (cs, rest4) => some (c :: cs, rest4)
        | Option.none => Option.none

/-- Decimal digits prefix of the input, with the rest. -/
def takeDigits (cs : List Char) : List Char × List Char :=
  (cs.takeWhile Char.isDigit, cs.dropWhile Char.isDigit)

/-- Numeric value of a digit list. -/
def digitsToNat (ds : List Char) : Nat :=
  ds.foldl (fun acc d => 10 * acc + (d.toNat - 48)) 0

/-- Parse a JSON number per the strict RFC grammar used by `json.loads`
(`-? (0 | [1-9][0-9]*) frac? exp?`, no leading `+`, no leading zeros,
no bare `.5`/`5.`).  The value is returned exactly as `PyVal.num m e`. -/
def parseNum (cs : List Char) : Option (PyVal × List Char) :=
  let (neg, cs1) :=
    match cs with
    | '-' :: rest => (true, rest)
    | _ => (false, cs)
  let (intDigits, cs2) := takeDigits cs1
  if intDigits.isEmpty then Option.none
  else if intDigits.length > 1 && intDigits.headD '0' = '0' then Option.none
  else
    let (fracDigits, cs3) :=
      match cs2 with
      | '.' :: rest =>
          let (ds, rest2) := takeDigits rest
          if ds.isEmpty then ([], cs2) else (ds, rest2)
      | _ => ([], cs2)
    let fracOk : Bool :=
      match cs2 with
      | '.' :: rest => !(takeDigits rest).1.isEmpty
      | _ => true
    if !fracOk then Option.none
    else
      let expParse : Option (Int × List Char) :=
        match cs3 with
        | e :: rest =>
            if e = 'e' || e = 'E' then
              let (esign, rest2) :=
                match rest with
                | '+' :: r => ((1 : Int), r)
                | '-' :: r => ((-1 : Int), r)
                | _ => ((1 : Int), rest)
              let (eds, rest3) := takeDigits rest2
              if eds.isEmpty then Option.none
              else some (esign * (digitsToNat eds : Int), rest3)
            else some (0, cs3)
        | [] => some (0, cs3)
      match expParse with
      | Option.none => Option.none
      | some (expo, rest) =>
          let mantissa : Int := (digitsToNat (intDigits ++ fracDigits) : Int)
          let mantissa := if neg then -mantissa else mantissa
          some (.num mantissa (expo - (fracDigits.length : Int)), rest)

mutual

/-- Recursive-descent JSON value parser modelling `json.loads` (document
grammar; fuel makes the recursion structural, `json_loads` supplies
enough fuel for any input). -/
def parseVal : Nat → List Char → Option (PyVal × List Char)
  | 0, _ => Option.none
  | fuel + 1, cs =>
      match skipWs cs with
      | [] => Option.none
      | c :: rest =>
          if c = lbrace then parseMembers fuel rest
          else if c = '[' then parseItems fuel rest
          else if c = '"' then
            match parseStrBody (rest.length + 1) rest with
            | some (body, rest2) => some (.str (String.mk body), rest2)
            | Option.none => Option.none
          else if c = 't' then
            if ['r', 'u', 'e'].isPrefixOf rest then some (.bool true, rest.drop 3)
            else Option.none
          else if c = 'f' then
            if ['a', 'l', 's', 'e'].isPrefixOf rest then some (.bool false, rest.drop 4)
            else Option.none
          else if c = 'n' then
            if ['u', 'l', 'l'].isPrefixOf rest then some (.none, rest.drop 3)
            else Option.none
          else if c = '-' || c.isDigit then parseNum (c :: rest)
          else Option.none

/-- Parse the items of a JSON array, the opening `[` already consumed. -/
def parseItems : Nat → List Char → Option (PyVal × List Char)
  | 0, _ => Option.none
  | fuel + 1, cs =>
      match skipWs cs with
      | ']' :: rest => some (.list [], rest)
      | cs1 =>
          match parseVal fuel cs1 with
          | Option.none => Option.none
          | some (v, rest) => parseItemsTail fuel [v] rest

/-- Parse `, item`* `]` for an array. -/
def parseItemsTail : Nat → List PyVal → List Char → Option (PyVal × List Char)
  | 0, _, _ => Option.none
  | fuel + 1, acc, cs =>
      match skipWs cs with
      | ']' :: rest => some (.list acc.reverse, rest)
      | ',' :: rest =>
          match parseVal fuel rest with
          | Option.none => Option.none
          | some (v, rest2) => parseItemsTail fuel (v :: acc) rest2
      | _ => Option.none

/-- Parse the members of a JSON object, the opening brace already
consumed. -/
def parseMembers : Nat → List Char → Option (PyVal × List Char)
  | 0, _ => Option.none
  | fuel + 1, cs =>
      match skipWs cs with
      | c :: rest =>
          if c = rbrace then some (.dict [], rest)
          else if c = '"' then
            match parseStrBody (rest.length + 1) rest with
            | some (key, rest2) => parseMemberVal fuel [] (String.mk key) rest2
            | Option.none => Option.none
          else Option.none
      | [] => Option.none

/-- Parse `: value` after a member key, then the remaining members. -/
def parseMemberVal : Nat → List (String × PyVal) → String → List Char →
    Option (PyVal × List Char)
  | 0, _, _, _ => Option.none
  | fuel + 1, acc, key, cs =>
      match skipWs cs with
      | ':' :: rest =>
          match parseVal fuel rest with
          | Option.none => Option.none
          | some (v, rest2) => parseMembersTail fuel (dictInsert acc key v) rest2
      | _ => Option.none

/-- Parse `, "key": value`* and the closing brace for an object
(duplicate keys overwrite in place, as in CPython). -/
def parseMembersTail : Nat → List (String × PyVal) → List Char →
    Option (PyVal × List Char)
  | 0, _, _ => Option.none
  | fuel + 1, acc, cs =>
      match skipWs cs with
      | c :: rest =>
          if c = rbrace then some (.dict acc, rest)
          else if c = ',' then
            match skipWs rest with
            | '"' :: rest2 =>
                match parseStrBody (rest2.length + 1) rest2 with
                | some (key, rest3) => parseMemberVal fuel acc (String.mk key) rest3
                | Option.none => Option.none
            | _ => Option.none
          else Option.none
      | [] => Option.none

end

/-- Model of `json.loads`: parse one JSON document, requiring only
whitespace after it (`Extra data` otherwise); `none` models
`json.JSONDecodeError`. -/
def json_loads (s : String) : Option PyVal :=
  let cs := s.data
  match parseVal (2 * cs.length + 2) cs with
  | some (v, rest) => if skipWs rest = [] then some v else Option.none
  | Option.none => Option.none

/-- Escape one character for a JSON string literal, as `json.dumps`
does with `ensure_ascii` disabled for the characters the pipeline
produces. -/
def jsonEscapeChar (c : Char) : String :=
  if c = '"' then "\\\""
  else if c = '\\' then "\\\\"
  else if c = '\n' then "\\n"
  else if c = '\r' then "\\r"
  else if c = '\t' then "\\t"
  else String.singleton c

/-- JSON string literal for `json.dumps`. -/
def jsonQuote (s : String) : String :=
  "\"" ++ String.join (s.data.map jsonEscapeChar) ++ "\""

/-- `n` two-space indentation units, as produced by `indent=2`. -/
def indent2 (level : Nat) : String := String.join (List.replicate level "  ")

mutual

/-- Model of `json.dumps(v, indent=2)` at a given indentation level. -/
def dumpVal : Nat → PyVal → String
  | _, .none => "null"
  | _, .bool true => "true"
  | _, .bool false => "false"
  | _, .num m e => numRepr m e
  | _, .str s => jsonQuote s
  | _, .list [] => "[]"
  | level, .list (x :: xs) =>
      "[\n" ++ dumpItems (level + 1) (x :: xs) ++ "\n" ++ indent2 level ++ "]"
  | _, .dict [] => String.singleton lbrace ++ String.singleton rbrace
  | level, .dict (kv :: kvs) =>
      String.singleton lbrace ++ "\n" ++ dumpKvs (level + 1) (kv :: kvs) ++ "\n" ++
        indent2 level ++ String.singleton rbrace

/-- Items of a list, one per line. -/
def dumpItems : Nat → List PyVal → String
  | _, [] => ""
  | level, [x] => indent2 level ++ dumpVal level x
  | level, x :: xs => indent2 level ++ dumpVal level x ++ ",\n" ++ dumpItems level xs

/-- Items of a dict, one per line. -/
def dumpKvs : Nat → List (String × PyVal) → String
  | _, [] => ""
  | level, [(k, v)] => indent2 level ++ jsonQuote k ++ ": " ++ dumpVal level v
  | level, (k, v) :: kvs =>
      indent2 level ++ jsonQuote k ++ ": " ++ dumpVal level v ++ ",\n" ++ dumpKvs level kvs

end

/-- Model of `json.dumps(v, indent=2)`. -/
def json_dumps_indent2 (v : PyVal) : String := dumpVal 0 v

/-- Characters removed by Python `str.strip()` with no argument. -/
def pyIsSpace (c : Char) : Bool :=
  c = ' ' || c = '\t' || c = '\n' || c = '\r' || c = '\x0b' || c = '\x0c'

/-- Model of Python `s.strip()`. -/
def pyStrip (s : String) : String :=
  String.mk (((s.data.dropWhile pyIsSpace).reverse.dropWhile pyIsSpace).reverse)

/-- Python `s.startswith(pre)`. -/
def pyStartsWith (s pre : String) : Bool := pre.data.isPrefixOf s.data

/-- Python `s.endswith(suf)`. -/
def pyEndsWith (s suf : String) : Bool := suf.data.reverse.isPrefixOf s.data.reverse

/-- Python character slicing `s[n:]`. -/
def pyDrop (s : String) (n : Nat) : String := String.mk (s.data.drop n)

/-- Python character slicing `s[:-n]` (for `n ≤ len(s)`). -/
def pyDropRight (s : String) (n : Nat) : String :=
  String.mk (s.data.take (s.data.length - n))

/-- String part of `clean_json_string`: strip, remove a leading
```` ```json ```` or ```` ``` ```` fence marker, remove a trailing
```` ``` ```` marker, strip again.  (`pipeline.py` lines 35–56.) -/
def cleanJsonStr (s : String) : String :=
  let s := pyStrip s
  let s :=
    if pyStartsWith s "```json" then pyDrop s 7
    else if pyStartsWith s "```" then pyDrop s 3
    else s
  let s := if pyEndsWith s "```" then pyDropRight s 3 else s
  pyStrip s

/-- `clean_json_string` from `pipeline.py`: non-strings are returned
unchanged, strings are fence-stripped. -/
def clean_json_string : PyVal → PyVal
  | .str s => .str (cleanJsonStr s)
  | v => v

/-- Index of the first occurrence of `c` (Python `s.find(c)`, with
`none` for `-1`). -/
def firstIdxOf (cs : List Char) (c : Char) : Option Nat := cs.findIdx? (· = c)

/-- Index of the last occurrence of `c` (Python `s.rfind(c)`, with
`none` for `-1`). -/
def lastIdxOf (cs : List Char) (c : Char) : Option Nat :=
  match cs.reverse.findIdx? (· = c) with
  | some i => some (cs.length - 1 - i)
  | Option.none => Option.none

/-- Strategy 2 of `try_parse_json`: clean markdown fences and retry the
parse, but only when cleaning changed the string. -/
def strategy2 (s : String) : Option PyVal :=
  let cleaned := cleanJsonStr s
  if cleaned ≠ s then json_loads cleaned else Option.none

/-- Strategy 3: extract the substring from the first opening brace to
the last closing brace (when the latter is strictly after the former)
and parse it. -/
def strategy3 (cleaned : String) : Option PyVal :=
  let cs := cleaned.data
  match firstIdxOf cs lbrace, lastIdxOf cs rbrace with
  | some first, some last =>
      if first < last then
        json_loads (String.mk ((cs.drop first).take (last + 1 - first)))
      else Option.none
  | _, _ => Option.none

/-- Strategy 4: like strategy 3 for the first `[` and the last `]`. -/
def strategy4 (cleaned : String) : Option PyVal :=
  let cs := cleaned.data
  match firstIdxOf cs '[', lastIdxOf cs ']' with
  | some first, some last =>
      if first < last then
        json_loads (String.mk ((cs.drop first).take (last + 1 - first)))
      else Option.none
  | _, _ => Option.none

/-- Split on every newline, keeping empty lines (Python
`s.split(chr(10))`). -/
def splitNl : List Char → List (List Char)
  | [] => [[]]
  | c :: rest =>
      let r := splitNl rest
      if c = '\n' then [] :: r else (c :: r.head!) :: r.tail

/-- Strategy 5: drop blank lines and lines whose stripped content starts
with `#`, rejoin the original lines with newlines, and parse. -/
def strategy5 (cleaned : String) : Option PyVal :=
  let lines := (splitNl cleaned.data).map String.mk
  let jsonLines := lines.filter fun line =>
    !(pyStrip line == "") && !pyStartsWith (pyStrip line) "#"
  json_loads (String.intercalate "\n" jsonLines)

/-- Strategy 6, the last resort: scan every contiguous substring in
order of increasing start index, then increasing end index, and return
the first one that parses to a dict or a list (substrings parsing to
scalars are skipped, as the code only returns `dict`/`list` results). -/
def strategy6 (cleaned : String) : Option PyVal :=
  let cs := cleaned.data
  let n := cs.length
  (List.range n).findSome? fun start =>
    (List.range' (start + 1) (n - start)).findSome? fun stop =>
      match json_loads (String.mk ((cs.drop start).take (stop - start))) with
      | some (.dict kvs) => some (.dict kvs)
      | some (.list xs) => some (.list xs)
      | _ => Option.none

/-- `try_parse_json` from `pipeline.py` (lines 59–133): dicts and other
non-strings are returned unchanged; strings go through the six-strategy
cascade, falling back to the original (pre-cleaning) string when every
strategy fails.  The `stage_name` parameter of the source is a
diagnostics-only label never read by the body and is omitted.  The
function is total: every strategy models its `try/except` by returning
an `Option`. -/
def try_parse_json : PyVal → PyVal
  | .dict kvs => .dict kvs
  | .str s =>
      match json_loads s with
      | some v => v
      | Option.none =>
          match strategy2 s with
          | some v => v
          | Option.none =>
              let cleaned := cleanJsonStr s
              match strategy3 cleaned with
              | some v => v
              | Option.none =>
                  match strategy4 cleaned with
                  | some v => v
                  | Option.none =>
                      match strategy5 cleaned with
                      | some v => v
                      | Option.none =>
                          match strategy6 cleaned with
                          | some v => v
                          | Option.none => .str s
  | v => v

/-- All six strategies of `try_parse_json` fail on the string `s`. -/
def all_strategies_fail (s : String) : Bool :=
  (json_loads s).isNone && (strategy2 s).isNone &&
    (strategy3 (cleanJsonStr s)).isNone && (strategy4 (cleanJsonStr s)).isNone &&
    (strategy5 (cleanJsonStr s)).isNone && (strategy6 (cleanJsonStr s)).isNone

/-- Trace of one call to the retry wrapper: its returned value (`none`
models the Python `None` failure signal), the number of attempts that
actually invoked the operation, and the backoff waits performed (in
seconds, in order). -/
structure RetryTrace (α : Type) where
  result : Option α
  attempts : Nat
  waits : List Nat

/-- The retry loop of `invoke_model_with_retry` (`for attempt in
range(max_retries)`), with `remaining` iterations left and `attempt`
the current zero-based index.  A successful attempt returns at once; a
failed attempt with more attempts remaining sleeps
`initial_wait * 2 ^ attempt` first; a failed final attempt returns the
failure value. -/
def retryFrom (op : Nat → Option α) (initial_wait : Nat) :
    Nat → Nat → RetryTrace α
  | 0, _ => ⟨Option.none, 0, []⟩
  | remaining + 1, attempt =>
      match op attempt with
      | some r => ⟨some r, 1, []⟩
      | Option.none =>
          if remaining = 0 then ⟨Option.none, 1, []⟩
          else
            let t := retryFrom op initial_wait remaining (attempt + 1)
            ⟨t.result, t.attempts + 1, initial_wait * 2 ^ attempt :: t.waits⟩

/-- `invoke_model_with_retry` from `pipeline.py` (lines 136–168).  The
injected `op` maps a zero-based attempt index to the response content of
`model.invoke` on that attempt, or `none` when the attempt raises; the
wrapper never inspects prompt or response.  `max_retries` is an integer
as in Python: `range` of a non-positive value is empty.  The
diagnostics-only `model_name` parameter is omitted. -/
def invoke_model_with_retry (op : Nat → Option α) (max_retries : Int)
    (initial_wait : Nat) : RetryTrace α :=
  retryFrom op initial_wait max_retries.toNat 0

/-- The value a keyed bag contributes: `text` if present, else
`content` if present (`pipeline.py` lines 17–21 and 26–30). -/
def bagChoice (kvs : List (String × PyVal)) : Option PyVal :=
  match dictLookup kvs "text" with
  | some v => some v
  | Option.none => dictLookup kvs "content"

/-- The piece a fragment of a response list contributes to
`text_parts`: keyed bags contribute their `text`/`content` value,
strings contribute themselves, everything else is skipped. -/
def fragPiece : PyVal → Option PyVal
  | .dict kvs => bagChoice kvs
  | .str s => some (.str s)
  | _ => Option.none

/-- The underlying string of a `str` value, if any. -/
def getStr : PyVal → Option String
  | .str s => some s
  | _ => Option.none

/-- The underlying strings of a list of values, defined only when all
of them are `str`. -/
def allGetStrs : List PyVal → Option (List String)
  | [] => some []
  | p :: ps =>
      match getStr p, allGetStrs ps with
      | some s, some l => some (s :: l)
      | _, _ => Option.none

/-- Model of `chr(10).join(parts)`: succeeds only when every part is a
string, as the Python join raises `TypeError` otherwise. -/
def joinStrs (parts : List PyVal) : Option String :=
  (allGetStrs parts).map (String.intercalate "\n")

/-- `extract_text_content` from `pipeline.py` (lines 9–32).  Strings
are returned unchanged; lists collect `text_parts` and newline-join
them (`TypeError` when a collected part is not a string), falling back
to `str(content)` when nothing was collected; dicts return their
`text`/`content` value (whatever its type), falling back to
`str(content)`; every other value falls back to `str(content)`. -/
def extract_text_content (content : PyVal) : Except String PyVal :=
  match content with
  | .str _ => .ok content
  | .list items =>
      let text_parts := items.filterMap fragPiece
      if text_parts.isEmpty then .ok (.str (pyStr content))
      else
        match joinStrs text_parts with
        | some s => .ok (.str s)
        | Option.none => .error "TypeError"
  | .dict kvs =>
      match bagChoice kvs with
      | some v => .ok v
      | Option.none => .ok (.str (pyStr content))
  | other => .ok (.str (pyStr other))

/-- Inputs on which every piece the extractor selects is a string, so
that the extraction produces a string without raising. -/
def extractsToString : PyVal → Bool
  | .list items =>
      items.all fun it =>
        match fragPiece it with
        | some v => v.isStr
        | Option.none => true
  | .dict kvs =>
      match bagChoice kvs with
      | some v => v.isStr
      | Option.none => true
  | _ => true

/-- Stage 1 (`stage_1_company_details`, `pipeline.py` lines 204–267):
invoke the configured model with three retries, extract the text of the
response and store it — unparsed — under `company_details`; the
`len(details)` in the success log can raise on a non-string extraction,
which the stage's `except` turns into a `None` return after the store.
The injected `op` stands for the stage's model and prompt. -/
def stage_1_company_details (op : Nat → Option PyVal)
    (st : List (String × PyVal)) : Option PyVal × List (String × PyVal) :=
  match (invoke_model_with_retry op 3 2).result with
  | Option.none => (Option.none, st)
  | some content =>
      match extract_text_content content with
      | .error _ => (Option.none, st)
      | .ok details =>
          let st1 := dictInsert st "company_details" details
          match pyLen details with
          | Option.none => (Option.none, st1)
          | some _ => (some details, st1)

/-- Stage 2 (`stage_2_generate_questions`, lines 269–361): requires a
truthy `company_details` argument, invokes with three retries, extracts
text, recovers structure with `try_parse_json` and stores the result
under `questions`; the logging that follows the store cannot raise. -/
def stage_2_generate_questions (company_details : Option PyVal)
    (op : Nat → Option PyVal) (st : List (String × PyVal)) :
    Option PyVal × List (String × PyVal) :=
  if !optTruthy company_details then (Option.none, st)
  else
    match (invoke_model_with_retry op 3 2).result with
    | Option.none => (Option.none, st)
    | some content =>
        match extract_text_content content with
        | .error _ => (Option.none, st)
        | .ok questions_text =>
            let questions_json := try_parse_json questions_text
            (some questions_json, dictInsert st "questions" questions_json)

/-- Stage 3 (`stage_3_answer_questions`, lines 363–484): requires truthy
`questions` and `company_details`, invokes with three retries and
initial wait 3, extracts, recovers structure and stores under
`answers`; for a dict result the success log takes
`len(answers_json.get(chr(34) ++ "responses" ...))`, whose `TypeError`
on a non-sizable value is caught after the store. -/
def stage_3_answer_questions (company_details questions : Option PyVal)
    (op : Nat → Option PyVal) (st : List (String × PyVal)) :
    Option PyVal × List (String × PyVal) :=
  if !optTruthy questions || !optTruthy company_details then (Option.none, st)
  else
    match (invoke_model_with_retry op 3 3).result with
    | Option.none => (Option.none, st)
    | some content =>
        match extract_text_content content with
        | .error _ => (Option.none, st)
        | .ok answers_text =>
            let answers_json := try_parse_json answers_text
            let st1 := dictInsert st "answers" answers_json
            match answers_json with
            | .dict kvs =>
                match pyLen (dictGet kvs "responses" (.list [])) with
                | Option.none => (Option.none, st1)
                | some _ => (some answers_json, st1)
            | _ => (some answers_json, st1)

/-- Constant part of the stage-4 prompt before the serialized answers
(`pipeline.py` lines 513–521). -/
def stage_4_prompt_prefix : String :=
  "You are an independent AI auditor.\n\nYou are given structured question-answer data about a company.\n\nYour role is NOT to rewrite answers.\nYour role is to evaluate and score them objectively.\n\nInput:\n"

/-- Constant part of the stage-4 prompt after the serialized answers
(lines 522–571); the doubled braces of the Python f-string are literal
braces here. -/
def stage_4_prompt_suffix : String :=
  "\n\nYour task:\n\nFor EACH response, evaluate:\n\n1. Logical consistency (1–10)\n2. Completeness (1–10)\n3. Clarity (1–10)\n4. Hallucination risk (Low / Medium / High)\n5. Bias presence (None / Mild / Moderate / Strong)\n6. Sentiment validation (Does the stated sentiment match the answer? Yes / No)\n7. Risk exposure level (Low / Medium / High)\n\nAdditionally:\n- Identify if the answer overstates certainty.\n- Flag any speculative language.\n- Detect internal contradictions.\n\nReturn strictly structured JSON in this format:\n```json\n\x7b\x7b\n  \"evaluation_results\": [\n    \x7b\x7b\n      \"stakeholder\": \"\",\n      \"question\": \"\",\n      \"scores\": \x7b\x7b\n        \"logical_consistency\": 0,\n        \"completeness\": 0,\n        \"clarity\": 0\n      \x7d\x7d,\n      \"hallucination_risk\": \"\",\n      \"bias_level\": \"\",\n      \"sentiment_alignment\": \"\",\n      \"risk_exposure\": \"\",\n      \"overconfidence_flag\": true/false,\n      \"speculation_flag\": true/false,\n      \"notes\": \"\"\n    \x7d\x7d\n  ],\n  \"overall_summary\": \x7b\x7b\n    \"average_logical_score\": 0,\n    \"average_completeness_score\": 0,\n    \"average_clarity_score\": 0,\n    \"dominant_sentiment_trend\": \"\",\n    \"overall_company_risk_signal\": \"\",\n    \"model_behavior_observations\": \"\"\n  \x7d\x7d\n\x7d\x7d\n```\n"

/-- The prompt `stage_4_score_results` sends to its model (lines
502–571): `answers_text` and `questions_text` are serialized exactly as
in the source (`json.dumps(·, indent=2)` for dicts, `str` otherwise) —
and the f-string interpolates only `answers_text`; `questions_text` is
computed but never used. -/
def stage_4_score_prompt (questions answers : PyVal) : String :=
  let answers_text :=
    match answers with
    | .dict kvs => json_dumps_indent2 (.dict kvs)
    | _ => pyStr answers
  let questions_text :=
    match questions with
    | .dict kvs => json_dumps_indent2 (.dict kvs)
    | _ => pyStr questions
  stage_4_prompt_prefix ++ answers_text ++ stage_4_prompt_suffix

/-- Stage 4 (`stage_4_score_results`, lines 486–610): requires truthy
`answers` (the `questions` argument is not validated), invokes with
three retries, extracts, recovers structure and stores under `scores`;
for a dict result containing `overall_summary` whose value is not a
dict, the success log's `summary.get` raises `AttributeError`, caught
after the store.  Prompt construction is factored into
`stage_4_score_prompt`; the injected `op` already stands for
model-plus-prompt, which the retry wrapper never inspects. -/
def stage_4_score_results (questions answers : Option PyVal)
    (op : Nat → Option PyVal) (st : List (String × PyVal)) :
    Option PyVal × List (String × PyVal) :=
  if !optTruthy answers then (Option.none, st)
  else
    match (invoke_model_with_retry op 3 2).result with
    | Option.none => (Option.none, st)
    | some content =>
        match extract_text_content content with
        | .error _ => (Option.none, st)
        | .ok scores_text =>
            let scores_json := try_parse_json scores_text
            let st1 := dictInsert st "scores" scores_json
            match scores_json with
            | .dict kvs =>
                match dictLookup kvs "overall_summary" with
                | some (.dict _) => (some scores_json, st1)
                | some _ => (Option.none, st1)
                | Option.none => (some scores_json, st1)
            | _ => (some scores_json, st1)

/-- `run_full_pipeline` (lines 612–646): run the four stages in order
over an initially empty result mapping, halting with `false` as soon as
a stage's return value is falsy; `true` only when all four stages
returned truthy values.  The four injected operations stand for the
four configured stage models applied to their prompts. -/
def run_full_pipeline (op1 op2 op3 op4 : Nat → Option PyVal) :
    Bool × List (String × PyVal) :=
  let r1 := stage_1_company_details op1 []
  if !optTruthy r1.1 then (false, r1.2)
  else
    let r2 := stage_2_generate_questions r1.1 op2 r1.2
    if !optTruthy r2.1 then (false, r2.2)
    else
      let r3 := stage_3_answer_questions r1.1 r2.1 op3 r2.2
      if !optTruthy r3.1 then (false, r3.2)
      else
        let r4 := stage_4_score_results r2.1 r3.1 op4 r3.2
        if !optTruthy r4.1 then (false, r4.2)
        else (true, r4.2)

/-! ### Lemmas about the retry loop -/

/-- The loop performs at most as many attempts as iterations remain. -/
theorem retryFrom_attempts_le {α : Type} (op : Nat → Option α) (w : Nat) :
    ∀ rem a, (retryFrom op w rem a).attempts ≤ rem := by
  intro rem
  induction rem with
  | zero => intro a; simp [retryFrom]
  | succ r ih =>
      intro a
      simp only [retryFrom]
      cases op a with
      | some v => simp
      | none =>
          by_cases hr : r = 0
          · simp [hr]
          · simp only [hr, if_false]
            have := ih (a + 1)
            omega

/-- If the first success is at zero-based offset `k` within the
remaining budget, the loop returns it after `k + 1` attempts and the
geometric backoff waits for offsets `0, …, k-1`. -/
theorem retryFrom_first_success {α : Type} (op : Nat → Option α) (w : Nat) :
    ∀ k rem a r, k < rem → (∀ i, i < k → op (a + i) = Option.none) →
      op (a + k) = some r →
      retryFrom op w rem a = ⟨some r, k + 1, (List.range k).map fun i => w * 2 ^ (a + i)⟩ := by
  intro k
  induction k with
  | zero =>
      intro rem a r hlt _ hk
      cases rem with
      | zero => omega
      | succ rm =>
          simp only [Nat.add_zero] at hk
          simp [retryFrom, hk]
  | succ k ih =>
      intro rem a r hlt hfail hk
      cases rem with
      | zero => omega
      | succ rm =>
          have h0 : op a = Option.none := by simpa using hfail 0 (Nat.succ_pos k)
          have hrm : rm ≠ 0 := by omega
          have hrec := ih rm (a + 1) r (by omega)
            (fun i hi => by
              have := hfail (i + 1) (by omega)
              simpa [Nat.add_assoc, Nat.add_comm, Nat.add_left_comm] using this)
            (by
              have : a + (k + 1) = a + 1 + k := by omega
              rwa [this] at hk)
          simp only [retryFrom, h0, hrm, if_false, hrec]
          refine congrArg _ ?_
          have hmap : (List.range (k + 1)).map (fun i => w * 2 ^ (a + i)) =
              w * 2 ^ a :: (List.range k).map fun i => w * 2 ^ (a + 1 + i) := by
            rw [List.range_succ_eq_map, List.map_cons, List.map_map]
            refine congrArg₂ _ (by simp) ?_
            refine List.map_congr_left ?_
            intro i _
            have : a + (i + 1) = a + 1 + i := by omega
            simp [Function.comp, this]
          simp [RetryTrace.mk.injEq, hmap]

/-- If every attempt in the remaining budget fails, the loop performs
all of them, waits after each but the last, and returns the failure
value. -/
theorem retryFrom_all_none {α : Type} (op : Nat → Option α) (w : Nat) :
    ∀ rem a, (∀ i, i < rem → op (a + i) = Option.none) →
      retryFrom op w rem a =
        ⟨Option.none, rem, (List.range (rem - 1)).map fun i => w * 2 ^ (a + i)⟩ := by
  intro rem
  induction rem with
  | zero => intro a _; simp [retryFrom]
  | succ rm ih =>
      intro a hfail
      have h0 : op a = Option.none := by simpa using hfail 0 (Nat.succ_pos rm)
      by_cases hrm : rm = 0
      · subst hrm
        simp [retryFrom, h0]
      · have hrec := ih (a + 1) (fun i hi => by
          have := hfail (i + 1) (by omega)
          simpa [Nat.add_assoc, Nat.add_comm, Nat.add_left_comm] using this)
        simp only [retryFrom, h0, hrm, if_false, hrec]
        have hmap : (List.range rm).map (fun i => w * 2 ^ (a + i)) =
            w * 2 ^ a :: (List.range (rm - 1)).map fun i => w * 2 ^ (a + 1 + i) := by
          conv_lhs => rw [show rm = (rm - 1) + 1 by omega]
          rw [List.range_succ_eq_map, List.map_cons, List.map_map]
          refine congrArg₂ _ (by simp) ?_
          refine List.map_congr_left ?_
          intro i _
          have : a + (i + 1) = a + 1 + i := by omega
          simp [Function.comp, this]
        simp [RetryTrace.mk.injEq, hmap]

/-- C2.  The resilient invocation wrapper performs at most
`max_retries` sequential attempts; when the first success is the
zero-based attempt `k` it returns that attempt's result immediately
after `k + 1` attempts, having waited `initial_wait * 2 ^ i` after
each failed attempt `i < k`; and when every attempt within the budget
fails it performs exactly the budgeted attempts, waits after each but
the last, and returns the failure value `none` instead of raising. -/
theorem invoke_model_with_retry_spec {α : Type} (op : Nat → Option α)
    (max_retries : Int) (initial_wait : Nat) :
    (invoke_model_with_retry op max_retries initial_wait).attempts ≤ max_retries.toNat ∧
    (∀ k r, k < max_retries.toNat → (∀ i, i < k → op i = Option.none) →
      op k = some r →
      invoke_model_with_retry op max_retries initial_wait =
        ⟨some r, k + 1, (List.range k).map fun i => initial_wait * 2 ^ i⟩) ∧
    ((∀ i, i < max_retries.toNat → op i = Option.none) →
      invoke_model_with_retry op max_retries initial_wait =
        ⟨Option.none, max_retries.toNat,
          (List.range (max_retries.toNat - 1)).map fun i => initial_wait * 2 ^ i⟩) := by
  refine ⟨retryFrom_attempts_le op initial_wait _ 0, ?_, ?_⟩
  · intro k r hk hfail hsucc
    have := retryFrom_first_success op initial_wait k max_retries.toNat 0 r hk
      (fun i hi => by simpa using hfail i hi) (by simpa using hsucc)
    simpa [invoke_model_with_retry] using this
  · intro hfail
    have := retryFrom_all_none op initial_wait max_retries.toNat 0
      (fun i hi => by simpa using hfail i hi)
    simpa [invoke_model_with_retry] using this

/-- Witness for C2: an operation failing on attempts 0 and 1 and
succeeding on attempt 2, with budget 3 and initial wait 2, yields the
third attempt's result after waits of 2 and 4 seconds. -/
theorem invoke_model_with_retry_spec_witness :
    invoke_model_with_retry (fun i => if i = 2 then some "ok" else Option.none) 3 2 =
      ⟨some "ok", 3, [2, 4]⟩ := by
  have h := (invoke_model_with_retry_spec
    (fun i => if i = 2 then some "ok" else Option.none) 3 2).2.1 2 "ok"
    (by decide) (by decide) (by decide)
  exact h.trans (by rfl)

/-- C10.  With a zero or negative `max_retries` the wrapper performs no
attempt at all, sleeps for no backoff, and returns the failure value
`None`, because `range(max_retries)` is empty. -/
theorem invoke_model_with_retry_nonpos {α : Type} (op : Nat → Option α)
    (initial_wait : Nat) (max_retries : Int) (h : max_retries ≤ 0) :
    invoke_model_with_retry op max_retries initial_wait =
      ⟨Option.none, 0, []⟩ := by
  unfold invoke_model_with_retry
  rw [Int.toNat_of_nonpos h]
  rfl

/-- Witness for C10 at `max_retries = -1`, with an operation that would
succeed on any attempt. -/
theorem invoke_model_with_retry_nonpos_witness :
    invoke_model_with_retry (fun _ => some (PyVal.str "x")) (-1) 5 =
      ⟨Option.none, 0, []⟩ :=
  invoke_model_with_retry_nonpos (fun _ => some (PyVal.str "x")) 5 (-1) (by decide)

/-- C1.  When all six strategies fail on a string, `try_parse_json`
returns the original string verbatim — in particular the result is
never `None` and never a dict (so never the empty object); the
function is total by construction, modelling that every strategy's
exceptions are caught. -/
theorem try_parse_json_total_failure_passthrough (s : String)
    (h : all_strategies_fail s = true) :
    try_parse_json (PyVal.str s) = PyVal.str s ∧
      try_parse_json (PyVal.str s) ≠ PyVal.none ∧
      ∀ kvs, try_parse_json (PyVal.str s) ≠ PyVal.dict kvs := by
  simp only [all_strategies_fail, Bool.and_eq_true, Option.isNone_iff_eq_none] at h
  obtain ⟨⟨⟨⟨⟨ha, hb⟩, hc⟩, hd⟩, he⟩, hf⟩ := h
  have he : try_parse_json (PyVal.str s) = PyVal.str s := by
    simp only [try_parse_json, ha, hb, hc, hd, he, hf]
  refine ⟨he, by rw [he]; intro hc; exact PyVal.noConfusion hc,
    fun kvs => by rw [he]; intro hc; exact PyVal.noConfusion hc⟩

/-- Witness for C1: on the unstructured reply `No.` every strategy
fails and the parser passes the text through verbatim. -/
theorem try_parse_json_total_failure_passthrough_witness :
    try_parse_json (PyVal.str "No.") = PyVal.str "No." ∧
      try_parse_json (PyVal.str "No.") ≠ PyVal.none ∧
      try_parse_json (PyVal.str "No.") ≠ PyVal.dict [] :=
  ⟨(try_parse_json_total_failure_passthrough "No." (by rfl)).1,
    (try_parse_json_total_failure_passthrough "No." (by rfl)).2.1,
    (try_parse_json_total_failure_passthrough "No." (by rfl)).2.2 []⟩

/-- C9.  `try_parse_json` returns every non-string input unchanged, so
on its own non-string (structured) output it is the identity. -/
theorem try_parse_json_nonstring_id :
    (∀ v : PyVal, v.isStr = false → try_parse_json v = v) ∧
    (∀ v : PyVal, (try_parse_json v).isStr = false →
      try_parse_json (try_parse_json v) = try_parse_json v) := by
  have base : ∀ v : PyVal, v.isStr = false → try_parse_json v = v := by
    intro v hv
    cases v with
    | str s => simp [PyVal.isStr] at hv
    | none => rfl
    | bool b => rfl
    | num m e => rfl
    | list xs => rfl
    | dict kvs => rfl
  exact ⟨base, fun v hv => base _ hv⟩

/-- Witness for C9: a dict passes through unchanged, and re-parsing the
structured output recovered from a JSON string is the identity. -/
theorem try_parse_json_nonstring_id_witness :
    try_parse_json (PyVal.dict [("a", PyVal.num 1 0)]) =
      PyVal.dict [("a", PyVal.num 1 0)] ∧
    try_parse_json (try_parse_json (PyVal.str "\x7b\"a\": 1\x7d")) =
      try_parse_json (PyVal.str "\x7b\"a\": 1\x7d") :=
  ⟨try_parse_json_nonstring_id.1 _ rfl, try_parse_json_nonstring_id.2 _ rfl⟩

/-- C8.  The Text Extractor is the identity on plain strings. -/
theorem extract_text_content_string_id (s : String) :
    extract_text_content (PyVal.str s) = Except.ok (PyVal.str s) := rfl

/-- If every element of a list is a string value, the underlying
strings can all be taken. -/
theorem allGetStrs_isSome (parts : List PyVal)
    (h : ∀ p ∈ parts, p.isStr = true) : ∃ l, allGetStrs parts = some l := by
  induction parts with
  | nil => exact ⟨[], rfl⟩
  | cons p ps ih =>
      obtain ⟨l, hl⟩ := ih fun q hq => h q (List.mem_cons_of_mem _ hq)
      have hp := h p (List.mem_cons_self _ _)
      cases p with
      | str s => exact ⟨s :: l, by simp [allGetStrs, getStr, hl]⟩
      | none => simp [PyVal.isStr] at hp
      | bool b => simp [PyVal.isStr] at hp
      | num m e => simp [PyVal.isStr] at hp
      | list xs => simp [PyVal.isStr] at hp
      | dict kvs => simp [PyVal.isStr] at hp

/-- C3, amended.  On every input whose selected pieces are strings —
plain strings, fragment sequences whose keyed bags hold strings under
`text`/`content`, keyed bags holding strings, and any shape with no
selectable piece — the Text Extractor raises nothing and returns a
string. -/
theorem extract_text_content_total_on_good (c : PyVal)
    (h : extractsToString c = true) :
    ∃ s, extract_text_content c = Except.ok (PyVal.str s) := by
  cases c with
  | str s => exact ⟨s, rfl⟩
  | none => exact ⟨_, rfl⟩
  | bool b => exact ⟨_, rfl⟩
  | num m e => exact ⟨_, rfl⟩
  | dict kvs =>
      simp only [extractsToString] at h
      cases hb : bagChoice kvs with
      | none => exact ⟨pyStr (PyVal.dict kvs), by simp [extract_text_content, hb]⟩
      | some v =>
          rw [hb] at h
          cases v with
          | str s => exact ⟨s, by simp [extract_text_content, hb]⟩
          | none => simp [PyVal.isStr] at h
          | bool b => simp [PyVal.isStr] at h
          | num m e => simp [PyVal.isStr] at h
          | list xs => simp [PyVal.isStr] at h
          | dict kvs2 => simp [PyVal.isStr] at h
  | list items =>
      simp only [extractsToString, List.all_eq_true] at h
      have hall : ∀ p ∈ items.filterMap fragPiece, p.isStr = true := by
        intro p hp
        rw [List.mem_filterMap] at hp
        obtain ⟨a, ha, hfa⟩ := hp
        have := h a ha
        rw [hfa] at this
        simpa using this
      obtain ⟨l, hl⟩ := allGetStrs_isSome _ hall
      cases he : (items.filterMap fragPiece).isEmpty with
      | true => exact ⟨pyStr (PyVal.list items), by simp [extract_text_content, he]⟩
      | false =>
          exact ⟨String.intercalate "\n" l,
            by simp [extract_text_content, he, joinStrs, hl]⟩

/-- Witness for C3 (amended): a fragment sequence of a string and a
`content`-keyed bag extracts to the newline-joined string. -/
theorem extract_text_content_total_on_good_witness :
    (∃ s, extract_text_content
        (PyVal.list [PyVal.str "a", PyVal.dict [("content", PyVal.str "b")]]) =
      Except.ok (PyVal.str s)) ∧
    extract_text_content
        (PyVal.list [PyVal.str "a", PyVal.dict [("content", PyVal.str "b")]]) =
      Except.ok (PyVal.str "a\nb") :=
  ⟨extract_text_content_total_on_good
      (PyVal.list [PyVal.str "a", PyVal.dict [("content", PyVal.str "b")]]) rfl, rfl⟩

/-- Counterexample to C3 as stated: a fragment sequence whose keyed bag
holds a number under `text` makes the newline join raise `TypeError`,
so the extractor is not total on every input shape. -/
theorem extract_text_content_raises_counterexample :
    extract_text_content (PyVal.list [PyVal.dict [("text", PyVal.num 5 0)]]) =
      Except.error "TypeError" := rfl

/-- C4, amended.  On a successful invocation whose response extracts to
`t`, stages 2, 3 and 4 store `try_parse_json t` (Text Extractor, then
recovery parser) under their keys, while stage 1 stores the extracted
text `t` itself, unparsed — the template is shared by three of the four
stages only. -/
theorem stage_template_extract_then_parse (c t : PyVal)
    (st : List (String × PyVal)) (hx : extract_text_content c = Except.ok t) :
    (stage_1_company_details (fun _ => some c) st).2 =
      dictInsert st "company_details" t ∧
    (stage_2_generate_questions (some (PyVal.str "D")) (fun _ => some c) st).2 =
      dictInsert st "questions" (try_parse_json t) ∧
    (stage_3_answer_questions (some (PyVal.str "D")) (some (PyVal.str "Q"))
        (fun _ => some c) st).2 = dictInsert st "answers" (try_parse_json t) ∧
    (stage_4_score_results (some (PyVal.str "Q")) (some (PyVal.str "A"))
        (fun _ => some c) st).2 = dictInsert st "scores" (try_parse_json t) := by
  refine ⟨?_, ?_, ?_, ?_⟩
  · have e : stage_1_company_details (fun _ => some c) st =
        (match extract_text_content c with
         | .error _ => (Option.none, st)
         | .ok details =>
             match pyLen details with
             | Option.none => (Option.none, dictInsert st "company_details" details)
             | some _ => (some details, dictInsert st "company_details" details)) := rfl
    rw [e, hx]
    have e2 : (match Except.ok t with
         | .error (_ : String) => ((Option.none : Option PyVal), st)
         | .ok details =>
             match pyLen details with
             | Option.none => (Option.none, dictInsert st "company_details" details)
             | some _ => (some details, dictInsert st "company_details" details)) =
        (match pyLen t with
         | Option.none => ((Option.none : Option PyVal), dictInsert st "company_details" t)
         | some _ => (some t, dictInsert st "company_details" t)) := rfl
    rw [e2]
    cases pyLen t <;> rfl
  · have e : stage_2_generate_questions (some (PyVal.str "D")) (fun _ => some c) st =
        (match extract_text_content c with
         | .error _ => (Option.none, st)
         | .ok questions_text =>
             (some (try_parse_json questions_text),
              dictInsert st "questions" (try_parse_json questions_text))) := rfl
    rw [e, hx]
  · have e : stage_3_answer_questions (some (PyVal.str "D")) (some (PyVal.str "Q"))
        (fun _ => some c) st =
        (match extract_text_content c with
         | .error _ => (Option.none, st)
         | .ok answers_text =>
             match try_parse_json answers_text with
             | .dict kvs =>
                 (match pyLen (dictGet kvs "responses" (.list [])) with
                  | Option.none =>
                      (Option.none, dictInsert st "answers" (try_parse_json answers_text))
                  | some _ =>
                      (some (try_parse_json answers_text),
                       dictInsert st "answers" (try_parse_json answers_text)))
             | _ =>
                 (some (try_parse_json answers_text),
                  dictInsert st "answers" (try_parse_json answers_text))) := by
      simp only [stage_3_answer_questions]
      rfl
    rw [e, hx]
    have e2 : (match Except.ok t with
         | .error (_ : String) => ((Option.none : Option PyVal), st)
         | .ok answers_text =>
             match try_parse_json answers_text with
             | .dict kvs =>
                 (match pyLen (dictGet kvs "responses" (.list [])) with
                  | Option.none =>
                      (Option.none, dictInsert st "answers" (try_parse_json answers_text))
                  | some _ =>
                      (some (try_parse_json answers_text),
                       dictInsert st "answers" (try_parse_json answers_text)))
             | _ =>
                 (some (try_parse_json answers_text),
                  dictInsert st "answers" (try_parse_json answers_text))) =
        (match try_parse_json t with
         | .dict kvs =>
             (match pyLen (dictGet kvs "responses" (.list [])) with
              | Option.none =>
                  ((Option.none : Option PyVal), dictInsert st "answers" (try_parse_json t))
              | some _ =>
                  (some (try_parse_json t), dictInsert st "answers" (try_parse_json t)))
         | _ => (some (try_parse_json t), dictInsert st "answers" (try_parse_json t))) := rfl
    rw [e2]
    cases htp : try_parse_json t with
    | dict kvs =>
        show (match pyLen (dictGet kvs "responses" (PyVal.list [])) with
              | Option.none =>
                  ((Option.none : Option PyVal), dictInsert st "answers" (PyVal.dict kvs))
              | some _ =>
                  (some (PyVal.dict kvs), dictInsert st "answers" (PyVal.dict kvs))).2 =
            dictInsert st "answers" (PyVal.dict kvs)
        cases pyLen (dictGet kvs "responses" (PyVal.list [])) <;> rfl
    | none => rfl
    | bool b => rfl
    | num m e2 => rfl
    | str s => rfl
    | list xs => rfl
  · have e : stage_4_score_results (some (PyVal.str "Q")) (some (PyVal.str "A"))
        (fun _ => some c) st =
        (match extract_text_content c with
         | .error _ => (Option.none, st)
         | .ok scores_text =>
             match try_parse_json scores_text with
             | .dict kvs =>
                 (match dictLookup kvs "overall_summary" with
                  | some (.dict _) =>
                      (some (try_parse_json scores_text),
                       dictInsert st "scores" (try_parse_json scores_text))
                  | some _ =>
                      (Option.none, dictInsert st "scores" (try_parse_json scores_text))
                  | Option.none =>
                      (some (try_parse_json scores_text),
                       dictInsert st "scores" (try_parse_json scores_text)))
             | _ =>
                 (some (try_parse_json scores_text),
                  dictInsert st "scores" (try_parse_json scores_text))) := by
      simp only [stage_4_score_results]
      rfl
    rw [e, hx]
    have e2 : (match Except.ok t with
         | .error (_ : String) => ((Option.none : Option PyVal), st)
         | .ok scores_text =>
             match try_parse_json scores_text with
             | .dict kvs =>
                 (match dictLookup kvs "overall_summary" with
                  | some (.dict _) =>
                      (some (try_parse_json scores_text),
                       dictInsert st "scores" (try_parse_json scores_text))
                  | some _ =>
                      (Option.none, dictInsert st "scores" (try_parse_json scores_text))
                  | Option.none =>
                      (some (try_parse_json scores_text),
                       dictInsert st "scores" (try_parse_json scores_text)))
             | _ =>
                 (some (try_parse_json scores_text),
                  dictInsert st "scores" (try_parse_json scores_text))) =
        (match try_parse_json t with
         | .dict kvs =>
             (match dictLookup kvs "overall_summary" with
              | some (.dict _) =>
                  (some (try_parse_json t), dictInsert st "scores" (try_parse_json t))
              | some _ =>
                  ((Option.none : Option PyVal), dictInsert st "scores" (try_parse_json t))
              | Option.none =>
                  (some (try_parse_json t), dictInsert st "scores" (try_parse_json t)))
         | _ => (some (try_parse_json t), dictInsert st "scores" (try_parse_json t))) := rfl
    rw [e2]
    cases htp : try_parse_json t with
    | dict kvs =>
        show (match dictLookup kvs "overall_summary" with
              | some (.dict _) =>
                  (some (PyVal.dict kvs), dictInsert st "scores" (PyVal.dict kvs))
              | some _ =>
                  ((Option.none : Option PyVal), dictInsert st "scores" (PyVal.dict kvs))
              | Option.none =>
                  (some (PyVal.dict kvs), dictInsert st "scores" (PyVal.dict kvs))).2 =
            dictInsert st "scores" (PyVal.dict kvs)
        cases hlk : dictLookup kvs "overall_summary" with
        | none => rfl
        | some v => cases v <;> rfl
    | none => rfl
    | bool b => rfl
    | num m e2 => rfl
    | str s => rfl
    | list xs => rfl

/-- Witness for C4 (amended) at a plain-text response: stage 1 stores
the raw text, stage 2 stores the parser's (here passthrough) output. -/
theorem stage_template_extract_then_parse_witness :
    (stage_1_company_details (fun _ => some (PyVal.str "x")) []).2 =
      [("company_details", PyVal.str "x")] ∧
    (stage_2_generate_questions (some (PyVal.str "D"))
        (fun _ => some (PyVal.str "x")) []).2 = [("questions", PyVal.str "x")] := by
  have h := stage_template_extract_then_parse (PyVal.str "x") (PyVal.str "x") [] rfl
  exact ⟨h.1.trans (by rfl), h.2.1.trans (by rfl)⟩

/-- Counterexample to C4 as stated: on a JSON response, stage 1 stores
the raw extracted string, which differs from the recovery parser's
output on that same extraction, so stage 1 does not apply the parser
before storing. -/
theorem stage_1_skips_parser_counterexample :
    (stage_1_company_details (fun _ => some (PyVal.str "\x7b\"a\": 1\x7d")) []).2 =
      [("company_details", PyVal.str "\x7b\"a\": 1\x7d")] ∧
    try_parse_json (PyVal.str "\x7b\"a\": 1\x7d") = PyVal.dict [("a", PyVal.num 1 0)] ∧
    PyVal.str "\x7b\"a\": 1\x7d" ≠ PyVal.dict [("a", PyVal.num 1 0)] :=
  ⟨rfl, rfl, fun hc => PyVal.noConfusion hc⟩

/-- C5, amended.  When stage 2's invocation succeeds and the recovery
parser degrades to passthrough text that is non-empty, the orchestrator
treats the stage as succeeded, runs stages 3 and 4, and completes; the
amendment drops the empty-text case, where the orchestrator's
truthiness check treats the stage as failed instead. -/
theorem passthrough_nonempty_is_stage_success (t : String)
    (hp : try_parse_json (PyVal.str t) = PyVal.str t) (ht : t ≠ "") :
    run_full_pipeline (fun _ => some (PyVal.str "D")) (fun _ => some (PyVal.str t))
        (fun _ => some (PyVal.str "A")) (fun _ => some (PyVal.str "S")) =
      (true, [("company_details", PyVal.str "D"), ("questions", PyVal.str t),
              ("answers", PyVal.str "A"), ("scores", PyVal.str "S")]) := by
  have htb : (t == "") = false := beq_eq_false_iff_ne.mpr ht
  have hT : optTruthy (some (PyVal.str t)) = true := by
    simp [optTruthy, pyTruthy, htb]
  have e1 : stage_1_company_details (fun _ => some (PyVal.str "D")) [] =
      (some (PyVal.str "D"), [("company_details", PyVal.str "D")]) := rfl
  have e2 : stage_2_generate_questions (some (PyVal.str "D"))
      (fun _ => some (PyVal.str t)) [("company_details", PyVal.str "D")] =
      (some (PyVal.str t),
       [("company_details", PyVal.str "D"), ("questions", PyVal.str t)]) := by
    have estep : stage_2_generate_questions (some (PyVal.str "D"))
        (fun _ => some (PyVal.str t)) [("company_details", PyVal.str "D")] =
        (some (try_parse_json (PyVal.str t)),
         dictInsert [("company_details", PyVal.str "D")] "questions"
           (try_parse_json (PyVal.str t))) := rfl
    rw [estep, hp]
    rfl
  have e3 : stage_3_answer_questions (some (PyVal.str "D")) (some (PyVal.str t))
      (fun _ => some (PyVal.str "A"))
      [("company_details", PyVal.str "D"), ("questions", PyVal.str t)] =
      (some (PyVal.str "A"),
       [("company_details", PyVal.str "D"), ("questions", PyVal.str t),
        ("answers", PyVal.str "A")]) := by
    simp only [stage_3_answer_questions]
    rw [hT]
    rfl
  have e4 : stage_4_score_results (some (PyVal.str t)) (some (PyVal.str "A"))
      (fun _ => some (PyVal.str "S"))
      [("company_details", PyVal.str "D"), ("questions", PyVal.str t),
       ("answers", PyVal.str "A")] =
      (some (PyVal.str "S"),
       [("company_details", PyVal.str "D"), ("questions", PyVal.str t),
        ("answers", PyVal.str "A"), ("scores", PyVal.str "S")]) := rfl
  simp only [run_full_pipeline, e1, e2, e3, e4]
  rw [hT]
  rfl

/-- Witness for C5 (amended): the unparseable non-empty reply `hello`
degrades to passthrough and the pipeline still completes with all four
stage results stored. -/
theorem passthrough_nonempty_is_stage_success_witness :
    run_full_pipeline (fun _ => some (PyVal.str "D")) (fun _ => some (PyVal.str "hello"))
        (fun _ => some (PyVal.str "A")) (fun _ => some (PyVal.str "S")) =
      (true, [("company_details", PyVal.str "D"), ("questions", PyVal.str "hello"),
              ("answers", PyVal.str "A"), ("scores", PyVal.str "S")]) :=
  passthrough_nonempty_is_stage_success "hello" (by rfl) (by decide)

/-- Counterexample to C5 as stated: stage 2's invocation succeeds with
an empty reply, the recovery parser degrades to passthrough of the
empty string, and the orchestrator treats the stage as failed — it
halts, never executes stages 3 and 4 (whose oracles would succeed), and
reports failure. -/
theorem passthrough_empty_fails_counterexample :
    run_full_pipeline (fun _ => some (PyVal.str "D")) (fun _ => some (PyVal.str ""))
        (fun _ => some (PyVal.str "A")) (fun _ => some (PyVal.str "S")) =
      (false, [("company_details", PyVal.str "D"), ("questions", PyVal.str "")]) := rfl

/-- C6.  When stage 1 succeeds with non-empty text and every attempt of
stage 2's invocation fails (exhausting the budget of three), the run
reports failure and the result mapping holds exactly the stage 1 entry;
stages 3 and 4 never execute, whatever their oracles would do. -/
theorem stage_2_failure_halts_pipeline (s : String) (op2 op3 op4 : Nat → Option PyVal)
    (hs : s ≠ "") (h2 : ∀ i, i < 3 → op2 i = Option.none) :
    run_full_pipeline (fun _ => some (PyVal.str s)) op2 op3 op4 =
      (false, [("company_details", PyVal.str s)]) := by
  have hsb : (s == "") = false := beq_eq_false_iff_ne.mpr hs
  have hT : optTruthy (some (PyVal.str s)) = true := by
    simp [optTruthy, pyTruthy, hsb]
  have e1 : stage_1_company_details (fun _ => some (PyVal.str s)) [] =
      (some (PyVal.str s), [("company_details", PyVal.str s)]) := rfl
  have hw : (invoke_model_with_retry op2 3 2).result = Option.none := by
    have h := retryFrom_all_none op2 2 3 0 (fun i hi => by simpa using h2 i hi)
    have hdef : invoke_model_with_retry op2 3 2 = retryFrom op2 2 3 0 := rfl
    rw [hdef, h]
  have e2 : stage_2_generate_questions (some (PyVal.str s)) op2
      [("company_details", PyVal.str s)] =
      (Option.none, [("company_details", PyVal.str s)]) := by
    simp only [stage_2_generate_questions]
    rw [hT, hw]
    rfl
  simp only [run_full_pipeline, e1, e2]
  rw [hT]
  rfl

/-- Witness for C6: stage 1 answers `D`, stage 2 always fails; the run
fails with only the stage 1 entry stored. -/
theorem stage_2_failure_halts_pipeline_witness :
    run_full_pipeline (fun _ => some (PyVal.str "D")) (fun _ => Option.none)
        (fun _ => some (PyVal.str "A")) (fun _ => some (PyVal.str "S")) =
      (false, [("company_details", PyVal.str "D")]) :=
  stage_2_failure_halts_pipeline "D" (fun _ => Option.none)
    (fun _ => some (PyVal.str "A")) (fun _ => some (PyVal.str "S"))
    (by decide) (fun _ _ => rfl)

/-- C7 fails on the code: the stage-4 prompt is built from the
serialized answers alone — it does not depend on the questions
argument at all, although the source computes the serialized questions
into a variable it never uses. -/
theorem stage_4_prompt_ignores_questions (q1 q2 answers : PyVal) :
    stage_4_score_prompt q1 answers = stage_4_score_prompt q2 answers := rfl
